import Mathlib

/-!
Shallow embedding of the cart-manager core of the ShoppyGlobe Express backend
(src/server.js).  The embedded operations are the four cart routes:

  GET    /cart      -> listCart
  POST   /cart      -> addItem     (validateCartItem middleware inlined)
  PUT    /cart/:id  -> updateItem
  DELETE /cart/:id  -> removeItem

Modelling decisions, each tied to the source:
* JavaScript numbers carried in request bodies and stored in documents
  (quantity, stock, price, rating) are modelled as rationals (`Rat`): the
  source validates `quantity < 1` and `product.stock < quantity` but never
  checks integrality of `quantity`, so fractional values can flow through.
* Mongo ObjectId values (user ids, CartItem document ids) are opaque and only
  ever compared for equality (`toString()` comparison in the source); they are
  modelled as `Nat`.  Mongo guarantees document ids are unique and fresh; the
  predicate `DB.wf` records that guarantee for states.
* `Product.id` is the human-assigned sequential integer id (`Number` field in
  the schema, assigned `lastProduct.id + 1` starting from 1); request product
  ids are taken to be integers, for which the `parseInt` normalisation in
  `validateCartItem` is the identity.
* The JavaScript truthiness guards `!productId || !quantity` reject the value
  0, hence the explicit `= 0` disjuncts in the validation steps.
* Each route handler wraps its body in try/catch returning HTTP 500
  (`StorageError`); the only such path reachable in this state model is the
  null dereference `product.stock` in PUT /cart/:id when the cart item
  references a product id absent from the catalog.
* The `addedAt` timestamp field of CartItem is wall-clock metadata no
  operation reads; it is not modelled.
-/

/-- Error taxonomy of the cart routes, one constructor per distinct error
response: 400 missing/invalid input, 404 not found, 403 not authorized,
400 "Not enough stock available", 500 "Server error". -/
inductive CartError where
  | validationError
  | notFoundError
  | forbiddenError
  | insufficientStockError
  | storageError
deriving DecidableEq, Repr

/-- A catalog entry (productSchema in src/server.js). -/
structure Product where
  id : Int
  title : String
  description : String
  category : String
  price : Rat
  rating : Rat
  stock : Rat
deriving DecidableEq, Repr

/-- A cart document (cartItemSchema in src/server.js): Mongo document id,
owning user reference, referenced Product.id, and quantity. -/
structure CartItem where
  docId : Nat
  user : Nat
  product : Int
  quantity : Rat
deriving DecidableEq, Repr

/-- The store state: the products collection, the cartItems collection, and
the next fresh Mongo document id. -/
structure DB where
  products : List Product
  cartItems : List CartItem
  nextDocId : Nat
deriving DecidableEq, Repr

/-- Guarantees Mongo provides for every reachable store state: cart document
ids are pairwise distinct and all below the fresh-id counter. -/
def DB.wf (db : DB) : Prop :=
  (db.cartItems.map (·.docId)).Nodup ∧ ∀ c ∈ db.cartItems, c.docId < db.nextDocId

instance (db : DB) : Decidable db.wf := by
  unfold DB.wf; infer_instance

/-- `Product.findOne({ id: pid })`. -/
def findProduct (db : DB) (pid : Int) : Option Product :=
  db.products.find? (fun p => p.id == pid)

/-- `CartItem.findById(cid)`. -/
def findCartItemById (db : DB) (cid : Nat) : Option CartItem :=
  db.cartItems.find? (fun c => c.docId == cid)

/-- `CartItem.findOne({ user: userId, product: productId })`. -/
def findCartEntry (db : DB) (u : Nat) (pid : Int) : Option CartItem :=
  db.cartItems.find? (fun c => c.user == u && c.product == pid)

/-- `cartItem.save()` on a document loaded from the store: persist the
modified document under its id. -/
def saveCartItem (db : DB) (item : CartItem) : DB :=
  { db with cartItems :=
      db.cartItems.map (fun c => if c.docId = item.docId then item else c) }

/-- GET /cart: the caller's cart entries, each joined with the referenced
product's current catalog data; read-only, the state comes back unchanged. -/
def listCart (db : DB) (userId : Nat) : List (CartItem × Option Product) × DB :=
  ((db.cartItems.filter (fun c => c.user == userId)).map
      (fun c => (c, findProduct db c.product)), db)

/-- POST /cart (validateCartItem then the handler): reject missing/zero or
sub-1 quantity and product id 0 (JS falsiness), 404 on unknown product, 400
when catalog stock is below the requested quantity; then increment the
existing (user, product) entry or insert a fresh one. -/
def addItem (db : DB) (userId : Nat) (productId : Int) (quantity : Rat) :
    Except CartError CartItem × DB :=
  if productId = 0 ∨ quantity = 0 then (.error .validationError, db)
  else if quantity < 1 then (.error .validationError, db)
  else
    match findProduct db productId with
    | none => (.error .notFoundError, db)
    | some product =>
      if product.stock < quantity then (.error .insufficientStockError, db)
      else
        match findCartEntry db userId productId with
        | some cartItem =>
          let cartItem := { cartItem with quantity := cartItem.quantity + quantity }
          (.ok cartItem, saveCartItem db cartItem)
        | none =>
          let cartItem : CartItem :=
            { docId := db.nextDocId, user := userId, product := productId,
              quantity := quantity }
          (.ok cartItem,
           { db with cartItems := db.cartItems ++ [cartItem],
                     nextDocId := db.nextDocId + 1 })

/-- PUT /cart/:id: reject missing/zero or sub-1 quantity, 404 on unknown cart
item, 403 on owner mismatch; the stock check dereferences the product fetched
by `cartItem.product` with no null guard, so an unresolvable product throws
and the catch-all answers 500; otherwise the quantity is replaced. -/
def updateItem (db : DB) (userId : Nat) (cartItemId : Nat) (quantity : Rat) :
    Except CartError CartItem × DB :=
  if quantity = 0 ∨ quantity < 1 then (.error .validationError, db)
  else
    match findCartItemById db cartItemId with
    | none => (.error .notFoundError, db)
    | some cartItem =>
      if cartItem.user ≠ userId then (.error .forbiddenError, db)
      else
        match findProduct db cartItem.product with
        | none => (.error .storageError, db)
        | some product =>
          if product.stock < quantity then (.error .insufficientStockError, db)
          else
            let cartItem := { cartItem with quantity := quantity }
            (.ok cartItem, saveCartItem db cartItem)

/-- DELETE /cart/:id: 404 on unknown cart item, 403 on owner mismatch, else
`cartItem.deleteOne()` removes the document with that id. -/
def removeItem (db : DB) (userId : Nat) (cartItemId : Nat) :
    Except CartError Unit × DB :=
  match findCartItemById db cartItemId with
  | none => (.error .notFoundError, db)
  | some cartItem =>
    if cartItem.user ≠ userId then (.error .forbiddenError, db)
    else
      (.ok (),
       { db with cartItems := db.cartItems.filter (fun c => !(c.docId == cartItemId)) })

/-- A cart-mutating request, for stating properties of arbitrary sequences of
operations. -/
inductive CartOp where
  | add (userId : Nat) (productId : Int) (quantity : Rat)
  | update (userId : Nat) (cartItemId : Nat) (quantity : Rat)
  | remove (userId : Nat) (cartItemId : Nat)
deriving DecidableEq, Repr

/-- The store state after serving one request (the response is dropped). -/
def applyOp (db : DB) : CartOp → DB
  | .add u p q => (addItem db u p q).2
  | .update u cid q => (updateItem db u cid q).2
  | .remove u cid => (removeItem db u cid).2

/-- The store state after serving a sequence of requests in order. -/
def applyOps (db : DB) (ops : List CartOp) : DB :=
  ops.foldl applyOp db

/-! ### Concrete states used to instantiate the theorems -/

/-- A catalog product with stock 10. -/
def prodW : Product :=
  { id := 1, title := "Essence Mascara", description := "lash princess",
    category := "beauty", price := 10, rating := 4, stock := 10 }

/-- A store with one product and an empty cart collection. -/
def dbW : DB := { products := [prodW], cartItems := [], nextDocId := 0 }

/-- A catalog product with stock 5. -/
def prodW2 : Product :=
  { id := 1, title := "Eyeshadow Palette", description := "with mirror",
    category := "beauty", price := 20, rating := 3, stock := 5 }

/-- A cart entry of user 1 for product 1 with quantity 4. -/
def itemW2 : CartItem := { docId := 0, user := 1, product := 1, quantity := 4 }

/-- A store where user 1 already has 4 units of the stock-5 product in cart. -/
def dbW2 : DB := { products := [prodW2], cartItems := [itemW2], nextDocId := 1 }

/-- A cart entry referencing product id 99, absent from the catalog. -/
def itemW3 : CartItem := { docId := 0, user := 1, product := 99, quantity := 2 }

/-- A store whose only cart entry references a product that no longer
resolves. -/
def dbW3 : DB := { products := [], cartItems := [itemW3], nextDocId := 1 }

/-! ### Characterisation lemmas: one per control-flow outcome of each route -/

theorem addItem_insert_eq (db : DB) (u : Nat) (p : Int) (q : Rat)
    (h0 : ¬(p = 0 ∨ q = 0)) (h1 : ¬ q < 1) (prod : Product)
    (hf : findProduct db p = some prod) (hs : ¬ prod.stock < q)
    (hn : findCartEntry db u p = none) :
    addItem db u p q =
      (.ok { docId := db.nextDocId, user := u, product := p, quantity := q },
       { db with
          cartItems := db.cartItems ++
            [{ docId := db.nextDocId, user := u, product := p, quantity := q }],
          nextDocId := db.nextDocId + 1 }) := by
  simp only [addItem, hf, hn, if_neg h0, if_neg h1, if_neg hs]

theorem addItem_increment_eq (db : DB) (u : Nat) (p : Int) (q : Rat)
    (h0 : ¬(p = 0 ∨ q = 0)) (h1 : ¬ q < 1) (prod : Product)
    (hf : findProduct db p = some prod) (hs : ¬ prod.stock < q)
    (item : CartItem) (he : findCartEntry db u p = some item) :
    addItem db u p q =
      (.ok { item with quantity := item.quantity + q },
       saveCartItem db { item with quantity := item.quantity + q }) := by
  simp only [addItem, hf, he, if_neg h0, if_neg h1, if_neg hs]

theorem addItem_insufficient_eq (db : DB) (u : Nat) (p : Int) (q : Rat)
    (h0 : ¬(p = 0 ∨ q = 0)) (h1 : ¬ q < 1) (prod : Product)
    (hf : findProduct db p = some prod) (hs : prod.stock < q) :
    addItem db u p q = (.error .insufficientStockError, db) := by
  simp only [addItem, hf, if_neg h0, if_neg h1, if_pos hs]

theorem updateItem_ok_eq (db : DB) (u cid : Nat) (q : Rat)
    (h0 : ¬(q = 0 ∨ q < 1)) (item : CartItem)
    (hi : findCartItemById db cid = some item) (ho : ¬ item.user ≠ u)
    (prod : Product) (hf : findProduct db item.product = some prod)
    (hs : ¬ prod.stock < q) :
    updateItem db u cid q =
      (.ok { item with quantity := q }, saveCartItem db { item with quantity := q }) := by
  simp only [updateItem, hi, hf, if_neg h0, if_neg ho, if_neg hs]

theorem updateItem_insufficient_eq (db : DB) (u cid : Nat) (q : Rat)
    (h0 : ¬(q = 0 ∨ q < 1)) (item : CartItem)
    (hi : findCartItemById db cid = some item) (ho : ¬ item.user ≠ u)
    (prod : Product) (hf : findProduct db item.product = some prod)
    (hs : prod.stock < q) :
    updateItem db u cid q = (.error .insufficientStockError, db) := by
  simp only [updateItem, hi, hf, if_neg h0, if_neg ho, if_pos hs]

theorem updateItem_forbidden_eq (db : DB) (u cid : Nat) (q : Rat)
    (h0 : ¬(q = 0 ∨ q < 1)) (item : CartItem)
    (hi : findCartItemById db cid = some item) (hne : item.user ≠ u) :
    updateItem db u cid q = (.error .forbiddenError, db) := by
  simp only [updateItem, hi, if_neg h0, if_pos hne]

theorem updateItem_storage_eq (db : DB) (u cid : Nat) (q : Rat)
    (h0 : ¬(q = 0 ∨ q < 1)) (item : CartItem)
    (hi : findCartItemById db cid = some item) (ho : ¬ item.user ≠ u)
    (hf : findProduct db item.product = none) :
    updateItem db u cid q = (.error .storageError, db) := by
  simp only [updateItem, hi, hf, if_neg h0, if_neg ho]

theorem removeItem_ok_eq (db : DB) (u cid : Nat) (item : CartItem)
    (hi : findCartItemById db cid = some item) (ho : ¬ item.user ≠ u) :
    removeItem db u cid =
      (.ok (),
       { db with cartItems := db.cartItems.filter (fun c => !(c.docId == cid)) }) := by
  simp only [removeItem, hi, if_neg ho]

theorem removeItem_forbidden_eq (db : DB) (u cid : Nat) (item : CartItem)
    (hi : findCartItemById db cid = some item) (hne : item.user ≠ u) :
    removeItem db u cid = (.error .forbiddenError, db) := by
  simp only [removeItem, hi, if_pos hne]

theorem removeItem_notFound_eq (db : DB) (u cid : Nat)
    (hi : findCartItemById db cid = none) :
    removeItem db u cid = (.error .notFoundError, db) := by
  simp only [removeItem, hi]

/-! ### Frame and membership helpers -/

theorem addItem_products_eq (db : DB) (u : Nat) (p : Int) (q : Rat) :
    (addItem db u p q).2.products = db.products := by
  unfold addItem
  repeat' split
  all_goals rfl

theorem updateItem_products_eq (db : DB) (u cid : Nat) (q : Rat) :
    (updateItem db u cid q).2.products = db.products := by
  unfold updateItem
  repeat' split
  all_goals rfl

theorem removeItem_products_eq (db : DB) (u cid : Nat) :
    (removeItem db u cid).2.products = db.products := by
  unfold removeItem
  repeat' split
  all_goals rfl

theorem mem_saveCartItem_cases {db : DB} {it c : CartItem}
    (h : c ∈ (saveCartItem db it).cartItems) : c = it ∨ c ∈ db.cartItems := by
  simp only [saveCartItem, List.mem_map] at h
  obtain ⟨a, ha, hc⟩ := h
  by_cases hd : a.docId = it.docId
  · rw [if_pos hd] at hc
    exact Or.inl hc.symm
  · rw [if_neg hd] at hc
    exact Or.inr (hc ▸ ha)

/-! ### Preservation of the quantity lower bound -/

theorem addItem_quantity_ge_one (db : DB) (u : Nat) (p : Int) (q : Rat)
    (hinv : ∀ c ∈ db.cartItems, 1 ≤ c.quantity) :
    ∀ c ∈ (addItem db u p q).2.cartItems, 1 ≤ c.quantity := by
  intro c hc
  by_cases h0 : p = 0 ∨ q = 0
  · simp only [addItem, if_pos h0] at hc
    exact hinv c hc
  by_cases h1 : q < 1
  · simp only [addItem, if_neg h0, if_pos h1] at hc
    exact hinv c hc
  rcases hfp : findProduct db p with _ | prod
  · simp only [addItem, if_neg h0, if_neg h1, hfp] at hc
    exact hinv c hc
  by_cases hs : prod.stock < q
  · simp only [addItem, if_neg h0, if_neg h1, hfp, if_pos hs] at hc
    exact hinv c hc
  rcases hfe : findCartEntry db u p with _ | item
  · rw [addItem_insert_eq db u p q h0 h1 prod hfp hs hfe] at hc
    simp only [List.mem_append, List.mem_singleton] at hc
    rcases hc with h | h
    · exact hinv c h
    · subst h
      exact not_lt.1 h1
  · rw [addItem_increment_eq db u p q h0 h1 prod hfp hs item hfe] at hc
    rcases mem_saveCartItem_cases hc with h | h
    · subst h
      have hq : (1 : Rat) ≤ q := not_lt.1 h1
      have hi : (1 : Rat) ≤ item.quantity :=
        hinv item (List.mem_of_find?_eq_some hfe)
      show (1 : Rat) ≤ item.quantity + q
      linarith
    · exact hinv c h

theorem updateItem_quantity_ge_one (db : DB) (u cid : Nat) (q : Rat)
    (hinv : ∀ c ∈ db.cartItems, 1 ≤ c.quantity) :
    ∀ c ∈ (updateItem db u cid q).2.cartItems, 1 ≤ c.quantity := by
  intro c hc
  by_cases h0 : q = 0 ∨ q < 1
  · simp only [updateItem, if_pos h0] at hc
    exact hinv c hc
  rcases hi : findCartItemById db cid with _ | item
  · simp only [updateItem, hi, if_neg h0] at hc
    exact hinv c hc
  by_cases hne : item.user ≠ u
  · rw [updateItem_forbidden_eq db u cid q h0 item hi hne] at hc
    exact hinv c hc
  rcases hf : findProduct db item.product with _ | prod
  · rw [updateItem_storage_eq db u cid q h0 item hi hne hf] at hc
    exact hinv c hc
  by_cases hs : prod.stock < q
  · rw [updateItem_insufficient_eq db u cid q h0 item hi hne prod hf hs] at hc
    exact hinv c hc
  rw [updateItem_ok_eq db u cid q h0 item hi hne prod hf hs] at hc
  rcases mem_saveCartItem_cases hc with h | h
  · subst h
    show (1 : Rat) ≤ q
    exact not_lt.1 (fun hlt => h0 (Or.inr hlt))
  · exact hinv c h

theorem removeItem_quantity_ge_one (db : DB) (u cid : Nat)
    (hinv : ∀ c ∈ db.cartItems, 1 ≤ c.quantity) :
    ∀ c ∈ (removeItem db u cid).2.cartItems, 1 ≤ c.quantity := by
  intro c hc
  rcases hi : findCartItemById db cid with _ | item
  · rw [removeItem_notFound_eq db u cid hi] at hc
    exact hinv c hc
  by_cases hne : item.user ≠ u
  · rw [removeItem_forbidden_eq db u cid item hi hne] at hc
    exact hinv c hc
  rw [removeItem_ok_eq db u cid item hi hne] at hc
  exact hinv c (List.mem_filter.1 hc).1

theorem applyOp_quantity_ge_one (db : DB) (op : CartOp)
    (hinv : ∀ c ∈ db.cartItems, 1 ≤ c.quantity) :
    ∀ c ∈ (applyOp db op).cartItems, 1 ≤ c.quantity := by
  cases op with
  | add u p q => exact addItem_quantity_ge_one db u p q hinv
  | update u cid q => exact updateItem_quantity_ge_one db u cid q hinv
  | remove u cid => exact removeItem_quantity_ge_one db u cid hinv

theorem applyOps_quantity_ge_one (ops : List CartOp) :
    ∀ db : DB, (∀ c ∈ db.cartItems, 1 ≤ c.quantity) →
      ∀ c ∈ (applyOps db ops).cartItems, 1 ≤ c.quantity := by
  induction ops with
  | nil => exact fun db hinv => hinv
  | cons op ops ih =>
    intro db hinv
    exact ih (applyOp db op) (applyOp_quantity_ge_one db op hinv)

/-! ### Claim theorems -/

/-- C2: for an existing product with current stock strictly below the
requested quantity (with quantity at least 1 and a nonzero product id, as the
catalog assigns ids from 1), AddItem fails with InsufficientStockError and the
whole store state — in particular the cart — is unchanged. -/
theorem addItem_insufficient_stock_rejected (db : DB) (u : Nat) (p : Int)
    (q : Rat) (prod : Product) (hp : p ≠ 0)
    (hfind : findProduct db p = some prod) (hq : 1 ≤ q)
    (hs : prod.stock < q) :
    addItem db u p q = (.error .insufficientStockError, db) :=
  addItem_insufficient_eq db u p q
    (not_or.2 ⟨hp, (zero_lt_one.trans_le hq).ne'⟩) (not_lt.2 hq) prod hfind hs

/-- Witness for C2: user 1 asks for 11 units of the stock-10 product; the call
fails with InsufficientStockError and the store is untouched. -/
theorem addItem_insufficient_stock_rejected_witness :
    addItem dbW 1 1 11 = (.error .insufficientStockError, dbW) :=
  addItem_insufficient_stock_rejected dbW 1 1 11 prodW (by decide) rfl
    (by decide) (by decide)

/-- C3: when a cart entry for (user, product) already exists, AddItem checks
stock only against the incremental request: whenever the increment alone is
within stock (no hypothesis relates stock to the new total), the call succeeds
and the entry's quantity becomes the old quantity plus the increment, all
other entries unchanged. -/
theorem addItem_existing_entry_skips_total_stock_check (db : DB) (u : Nat)
    (p : Int) (q : Rat) (prod : Product) (item : CartItem) (hp : p ≠ 0)
    (hfind : findProduct db p = some prod) (hq : 1 ≤ q) (hs : q ≤ prod.stock)
    (he : findCartEntry db u p = some item) :
    (addItem db u p q).1 = .ok { item with quantity := item.quantity + q } ∧
      (addItem db u p q).2.cartItems =
        db.cartItems.map (fun c =>
          if c.docId = item.docId then { item with quantity := item.quantity + q }
          else c) := by
  rw [addItem_increment_eq db u p q
    (not_or.2 ⟨hp, (zero_lt_one.trans_le hq).ne'⟩) (not_lt.2 hq) prod hfind
    (not_lt.2 hs) item he]
  exact ⟨rfl, rfl⟩

/-- Witness for C3: the cart already holds 4 units of the stock-5 product and
user 1 adds 3 more; 4 + 3 exceeds the stock of 5, yet the call succeeds and
the entry becomes 4 + 3. -/
theorem addItem_existing_entry_skips_total_stock_check_witness :
    prodW2.stock < itemW2.quantity + 3 ∧
      ((addItem dbW2 1 1 3).1 = .ok { itemW2 with quantity := itemW2.quantity + 3 } ∧
        (addItem dbW2 1 1 3).2.cartItems =
          dbW2.cartItems.map (fun c =>
            if c.docId = itemW2.docId then { itemW2 with quantity := itemW2.quantity + 3 }
            else c)) :=
  ⟨by norm_num [prodW2, itemW2],
   addItem_existing_entry_skips_total_stock_check dbW2 1 1 3 prodW2 itemW2
     (by decide) rfl (by decide) (by decide) rfl⟩

/-- C4: on an existing cart item owned by the caller whose product resolves,
with requested quantity at least 1: if current stock is strictly below the
requested quantity, UpdateItem fails with InsufficientStockError and the store
is unchanged; otherwise it succeeds and replaces the quantity with the
requested value (absolute set, not a delta), all other entries unchanged. -/
theorem updateItem_stock_gate_absolute_set (db : DB) (u cid : Nat) (q : Rat)
    (item : CartItem) (prod : Product)
    (hitem : findCartItemById db cid = some item) (howner : item.user = u)
    (hq : 1 ≤ q) (hprod : findProduct db item.product = some prod) :
    (prod.stock < q →
        updateItem db u cid q = (.error .insufficientStockError, db)) ∧
      (q ≤ prod.stock →
        (updateItem db u cid q).1 = .ok { item with quantity := q } ∧
          (updateItem db u cid q).2.cartItems =
            db.cartItems.map (fun c =>
              if c.docId = item.docId then { item with quantity := q } else c)) := by
  have h0 : ¬(q = 0 ∨ q < 1) :=
    not_or.2 ⟨(zero_lt_one.trans_le hq).ne', not_lt.2 hq⟩
  have ho : ¬ item.user ≠ u := fun hne => hne howner
  refine ⟨fun hs => updateItem_insufficient_eq db u cid q h0 item hitem ho prod hprod hs,
    fun hs => ?_⟩
  rw [updateItem_ok_eq db u cid q h0 item hitem ho prod hprod (not_lt.2 hs)]
  exact ⟨rfl, rfl⟩

/-- Witness for C4: owner 1 sets the quantity of cart item 0 to 3 against the
stock-5 product; both branches of the gate are instantiated at that input. -/
theorem updateItem_stock_gate_absolute_set_witness :
    (prodW2.stock < 3 →
        updateItem dbW2 1 0 3 = (.error .insufficientStockError, dbW2)) ∧
      (3 ≤ prodW2.stock →
        (updateItem dbW2 1 0 3).1 = .ok { itemW2 with quantity := 3 } ∧
          (updateItem dbW2 1 0 3).2.cartItems =
            dbW2.cartItems.map (fun c =>
              if c.docId = itemW2.docId then { itemW2 with quantity := 3 } else c)) :=
  updateItem_stock_gate_absolute_set dbW2 1 0 3 itemW2 prodW2 rfl rfl
    (by decide) rfl

/-- C5: on an existing cart item whose stored owner differs from the caller,
both UpdateItem (for any requested quantity at least 1, so that the quantity
guard does not fire first) and RemoveItem fail with ForbiddenError and the
store is unchanged. -/
theorem nonowner_update_remove_forbidden (db : DB) (u cid : Nat) (q : Rat)
    (item : CartItem) (hitem : findCartItemById db cid = some item)
    (hne : item.user ≠ u) (hq : 1 ≤ q) :
    updateItem db u cid q = (.error .forbiddenError, db) ∧
      removeItem db u cid = (.error .forbiddenError, db) :=
  ⟨updateItem_forbidden_eq db u cid q
      (not_or.2 ⟨(zero_lt_one.trans_le hq).ne', not_lt.2 hq⟩) item hitem hne,
   removeItem_forbidden_eq db u cid item hitem hne⟩

/-- Witness for C5: user 2 tries to update and to delete the cart item owned
by user 1; both calls fail with ForbiddenError and the store is untouched. -/
theorem nonowner_update_remove_forbidden_witness :
    updateItem dbW2 2 0 3 = (.error .forbiddenError, dbW2) ∧
      removeItem dbW2 2 0 = (.error .forbiddenError, dbW2) :=
  nonowner_update_remove_forbidden dbW2 2 0 3 itemW2 rfl (by decide) (by decide)

/-- C6: removing an owned cart item succeeds and deletes the document with
that id; removing the same id again fails with NotFoundError, leaving the
state from the first removal in place (never a silent success). -/
theorem removeItem_twice_second_notFound (db : DB) (u cid : Nat)
    (item : CartItem) (hitem : findCartItemById db cid = some item)
    (howner : item.user = u) :
    removeItem db u cid =
        (.ok (),
         { db with cartItems := db.cartItems.filter (fun c => !(c.docId == cid)) }) ∧
      removeItem (removeItem db u cid).2 u cid =
        (.error .notFoundError, (removeItem db u cid).2) := by
  have e := removeItem_ok_eq db u cid item hitem (fun hne => hne howner)
  refine ⟨e, ?_⟩
  have hnone : findCartItemById (removeItem db u cid).2 cid = none := by
    rw [e]
    simp [findCartItemById, List.find?_eq_none, List.mem_filter]
  exact removeItem_notFound_eq _ u cid hnone

/-- Witness for C6: owner 1 deletes cart item 0 twice; the first call removes
the entry, the second answers NotFoundError. -/
theorem removeItem_twice_second_notFound_witness :
    removeItem dbW2 1 0 =
        (.ok (),
         { dbW2 with cartItems := dbW2.cartItems.filter (fun c => !(c.docId == 0)) }) ∧
      removeItem (removeItem dbW2 1 0).2 1 0 =
        (.error .notFoundError, (removeItem dbW2 1 0).2) :=
  removeItem_twice_second_notFound dbW2 1 0 itemW2 rfl rfl

/-- C7: ListCart returns exactly the cart entries stored for the caller — a
joined row for an entry appears iff the entry is in the store and owned by the
caller, the returned rows are the owner filter of the collection, the result
is empty when the caller owns nothing — and the store comes back unchanged. -/
theorem listCart_exactly_owner_entries (db : DB) (u : Nat) :
    (∀ c : CartItem,
        (∃ jp, (c, jp) ∈ (listCart db u).1) ↔ c ∈ db.cartItems ∧ c.user = u) ∧
      (listCart db u).1.map Prod.fst = db.cartItems.filter (fun c => c.user == u) ∧
      (db.cartItems.filter (fun c => c.user == u) = [] → (listCart db u).1 = []) ∧
      (listCart db u).2 = db := by
  refine ⟨fun c => ?_, ?_, fun hnil => ?_, rfl⟩
  · constructor
    · rintro ⟨jp, hmem⟩
      simp only [listCart, List.mem_map, List.mem_filter] at hmem
      obtain ⟨a, ⟨ha, hu⟩, heq⟩ := hmem
      rw [Prod.mk.injEq] at heq
      obtain ⟨rfl, -⟩ := heq
      exact ⟨ha, by simpa using hu⟩
    · rintro ⟨hc, hu⟩
      refine ⟨findProduct db c.product, ?_⟩
      simp only [listCart, List.mem_map, List.mem_filter]
      exact ⟨c, ⟨hc, by simp [hu]⟩, rfl⟩
  · show ((db.cartItems.filter fun c => c.user == u).map
      (fun c => (c, findProduct db c.product))).map Prod.fst = _
    rw [List.map_map]
    exact List.map_id' _
  · show ((db.cartItems.filter fun c => c.user == u).map
      (fun c => (c, findProduct db c.product))) = []
    rw [hnil]
    rfl

/-- C9: none of the four cart operations changes the products collection in
any way — stock is read as a gate but never written — and ListCart returns the
entire store state unchanged. -/
theorem cart_ops_never_modify_products (db : DB) (u cid : Nat) (p : Int)
    (q : Rat) :
    (addItem db u p q).2.products = db.products ∧
      (updateItem db u cid q).2.products = db.products ∧
      (removeItem db u cid).2.products = db.products ∧
      (listCart db u).2 = db :=
  ⟨addItem_products_eq db u p q, updateItem_products_eq db u cid q,
   removeItem_products_eq db u cid, rfl⟩

/-- C10: on an owned cart item whose referenced product id resolves to no
catalog product, UpdateItem (with quantity at least 1) does not answer
NotFoundError: the unguarded stock dereference throws and the catch-all
answers 500, modelled StorageError, with the store unchanged. -/
theorem updateItem_dangling_product_storage_error (db : DB) (u cid : Nat)
    (q : Rat) (item : CartItem) (hitem : findCartItemById db cid = some item)
    (howner : item.user = u) (hq : 1 ≤ q)
    (hmiss : findProduct db item.product = none) :
    updateItem db u cid q = (.error .storageError, db) ∧
      (updateItem db u cid q).1 ≠ .error .notFoundError := by
  have e := updateItem_storage_eq db u cid q
    (not_or.2 ⟨(zero_lt_one.trans_le hq).ne', not_lt.2 hq⟩) item hitem
    (fun hne => hne howner) hmiss
  rw [e]
  exact ⟨rfl, by simp⟩

/-- Witness for C10: the only cart entry references the absent product id 99;
the owner's update answers StorageError, not NotFoundError, and the entry is
untouched. -/
theorem updateItem_dangling_product_storage_error_witness :
    updateItem dbW3 1 0 5 = (.error .storageError, dbW3) ∧
      (updateItem dbW3 1 0 5).1 ≠ .error .notFoundError :=
  updateItem_dangling_product_storage_error dbW3 1 0 5 itemW3 rfl rfl
    (by decide) rfl

/-- C1: starting from a well-formed store holding product p (nonzero id, as
the catalog assigns ids from 1) and no cart entry for (u, p), two AddItem
calls for (u, p) with quantities at least 1, each within current stock, leave
exactly one cart entry for (u, p) — never a second entry — and its quantity is
q1 + q2. -/
theorem addItem_twice_one_entry_accumulates (db : DB) (u : Nat) (p : Int)
    (q1 q2 : Rat) (prod : Product) (hwf : db.wf) (hp : p ≠ 0)
    (hfind : findProduct db p = some prod) (hq1 : 1 ≤ q1) (hq2 : 1 ≤ q2)
    (hs1 : q1 ≤ prod.stock) (hs2 : q2 ≤ prod.stock)
    (hnone : findCartEntry db u p = none) :
    (addItem (addItem db u p q1).2 u p q2).1 =
        .ok { docId := db.nextDocId, user := u, product := p, quantity := q1 + q2 } ∧
      ((addItem (addItem db u p q1).2 u p q2).2.cartItems.filter
          (fun c => c.user == u && c.product == p)).map (·.quantity) = [q1 + q2] := by
  have h01 : ¬(p = 0 ∨ q1 = 0) := not_or.2 ⟨hp, (zero_lt_one.trans_le hq1).ne'⟩
  have h02 : ¬(p = 0 ∨ q2 = 0) := not_or.2 ⟨hp, (zero_lt_one.trans_le hq2).ne'⟩
  have hn : db.cartItems.find? (fun c => c.user == u && c.product == p) = none := hnone
  have e1 := addItem_insert_eq db u p q1 h01 (not_lt.2 hq1) prod hfind
    (not_lt.2 hs1) hnone
  set new : CartItem :=
    { docId := db.nextDocId, user := u, product := p, quantity := q1 } with hnew
  set db1 : DB :=
    { db with cartItems := db.cartItems ++ [new],
              nextDocId := db.nextDocId + 1 } with hdb1
  have hfind1 : findProduct db1 p = some prod := by
    simpa [findProduct, hdb1] using hfind
  have hentry1 : findCartEntry db1 u p = some new := by
    simp [findCartEntry, hdb1, List.find?_append, hn, hnew]
  have e2 := addItem_increment_eq db1 u p q2 h02 (not_lt.2 hq2) prod hfind1
    (not_lt.2 hs2) new hentry1
  set new2 : CartItem := { new with quantity := new.quantity + q2 } with hnew2
  have hne' : ∀ a ∈ db.cartItems, (if a.docId = new2.docId then new2 else a) = a := by
    intro a ha
    have hlt := hwf.2 a ha
    have hd : a.docId ≠ new2.docId := by
      simp only [hnew2, hnew]
      omega
    rw [if_neg hd]
  have hmap : db1.cartItems.map (fun c => if c.docId = new2.docId then new2 else c) =
      db.cartItems ++ [new2] := by
    simp only [hdb1, List.map_append,
      (List.map_congr_left hne').trans (List.map_id' _)]
    simp [hnew2, hnew]
  have hfilter0 : db.cartItems.filter (fun c => c.user == u && c.product == p) = [] :=
    List.filter_eq_nil_iff.2 (fun a ha => by
      simpa using List.find?_eq_none.1 hn a ha)
  simp only [e1, e2]
  refine ⟨by simp [hnew2, hnew], ?_⟩
  show ((saveCartItem db1 new2).cartItems.filter
      (fun c => c.user == u && c.product == p)).map (·.quantity) = [q1 + q2]
  simp only [saveCartItem]
  rw [hmap, List.filter_append, hfilter0]
  simp [hnew2, hnew]

/-- Witness for C1: on the empty cart, user 7 adds 2 then 3 units of the
stock-10 product; exactly one entry for (7, 1) remains and its quantity is
2 + 3. -/
theorem addItem_twice_one_entry_accumulates_witness :
    (addItem (addItem dbW 7 1 2).2 7 1 3).1 =
        .ok { docId := dbW.nextDocId, user := 7, product := 1, quantity := 2 + 3 } ∧
      ((addItem (addItem dbW 7 1 2).2 7 1 3).2.cartItems.filter
          (fun c => c.user == 7 && c.product == 1)).map (·.quantity) = [2 + 3] :=
  addItem_twice_one_entry_accumulates dbW 7 1 2 3 prodW (by decide) (by decide)
    rfl (by decide) (by decide) (by decide) (by decide) rfl

/-- C8 (amended): after any sequence of cart operations from a state whose
cart entries all have quantity at least 1, every cart entry still has quantity
at least 1 — AddItem and UpdateItem reject requested quantities below 1 — but
integrality is not part of the invariant (see the counterexample). -/
theorem cart_quantities_ge_one_invariant (db : DB) (ops : List CartOp)
    (hinv : ∀ c ∈ db.cartItems, 1 ≤ c.quantity) :
    ∀ c ∈ (applyOps db ops).cartItems, 1 ≤ c.quantity :=
  applyOps_quantity_ge_one ops db hinv

/-- Witness for C8: a store whose one entry has quantity 4 keeps all cart
quantities at least 1 across an add, an update and a (forbidden) removal. -/
theorem cart_quantities_ge_one_invariant_witness :
    (∀ c ∈ dbW2.cartItems, 1 ≤ c.quantity) ∧
      ∀ c ∈ (applyOps dbW2
          [.add 1 1 1, .update 1 0 2, .remove 2 0]).cartItems, 1 ≤ c.quantity :=
  ⟨by decide,
   cart_quantities_ge_one_invariant dbW2 [.add 1 1 1, .update 1 0 2, .remove 2 0]
     (by decide)⟩

/-- C8 counterexample: the claim also asserts every existing cart entry's
quantity is an integer, but the source checks only quantity < 1 and never
integrality: AddItem with quantity 3/2 succeeds against stock 10 and stores a
cart entry whose quantity 3/2 is not an integer. -/
theorem cart_quantity_integrality_fails :
    (addItem dbW 1 1 (3/2)).1 =
        .ok { docId := 0, user := 1, product := 1, quantity := 3/2 } ∧
      (addItem dbW 1 1 (3/2)).2.cartItems.map (·.quantity) = [3/2] ∧
      ¬ ∃ n : Int, (3/2 : Rat) = (n : Rat) := by
  refine ⟨?_, ?_, ?_⟩
  · norm_num [addItem, dbW, prodW, findProduct, findCartEntry, List.find?]
  · norm_num [addItem, dbW, prodW, findProduct, findCartEntry, List.find?]
  · rintro ⟨n, h⟩
    rw [div_eq_iff (by norm_num : (2:Rat) ≠ 0)] at h
    have h3 : (3 : Int) = n * 2 := by exact_mod_cast h
    omega
